import Mathlib

/-!
Shallow embedding of the technical-analysis and signal-fusion core of the
sambotv2 trading backend (src/backend/modules), together with proofs of the
frozen specification claims.  All market quantities (prices, open interest,
volumes, implied volatilities) are modelled as exact rationals; Python's
ambient clock calls (date.today(), datetime.now()) are modelled as explicit
parameters; Python's round(x, n) is modelled as round-half-to-even on
rationals.  The Black-Scholes gamma (which uses the transcendental normal
density) enters the option-chain pipeline as an explicit function parameter.
-/

namespace Sambot

/-- Round-half-to-even on rationals, modelling Python's built-in round
applied to an exact value. -/
def round_half_even (q : ℚ) : ℤ :=
  let f := ⌊q⌋
  let r := q - f
  if r < 1/2 then f
  else if 1/2 < r then f + 1
  else if f % 2 = 0 then f else f + 1

/-- Python round(x, dp) on an exact rational. -/
def round_dp (dp : ℕ) (q : ℚ) : ℚ := (round_half_even (q * 10 ^ dp) : ℚ) / 10 ^ dp

/-- Maximum of f over a list, given a seed value for the head. -/
def fold_max (f : α → ℚ) : List α → ℚ → ℚ
  | [], b => b
  | x :: xs, b => fold_max f xs (max b (f x))

/-- Minimum of f over a list, given a seed value for the head. -/
def fold_min (f : α → ℚ) : List α → ℚ → ℚ
  | [], b => b
  | x :: xs, b => fold_min f xs (min b (f x))

/-- An OHLCV candle row, as the backend receives it from the data feed:
a list [timestamp, open, high, low, close, volume].  Field o is the open
price (open is a Lean keyword). -/
structure Candle where
  ts : ℚ
  o : ℚ
  h : ℚ
  l : ℚ
  c : ℚ
  v : ℚ
deriving DecidableEq

instance : Inhabited Candle := ⟨⟨0, 0, 0, 0, 0, 0⟩⟩

/-- max over the high field of a candle list (0 on the empty list, which is
guarded against at every use site). -/
def max_high (cs : List Candle) : ℚ :=
  match cs with
  | [] => 0
  | x :: xs => fold_max Candle.h xs x.h

/-- min over the low field of a candle list (0 on the empty list, guarded). -/
def min_low (cs : List Candle) : ℚ :=
  match cs with
  | [] => 0
  | x :: xs => fold_min Candle.l xs x.l

/-! ### modules/market_open.py -/

/-- The successful payload of run_market_open_analysis (market_open.py lines
63-78).  market_open_date is the ambient date.today() value. -/
structure MarketOpenData where
  market_open_date : String
  market_open_time : String
  analysis_period : String
  candles_used : ℕ
  opening_high : ℚ
  opening_low : ℚ
  opening_range_width : ℚ
  volatility_pct : ℚ
  opening_direction : String
  open_close_change_pct : ℚ
  high_volume_opening : Bool
  vwap_relation : String
  vwap_distance_pct : ℚ
  opening_range_time : String
deriving DecidableEq

/-- Result of run_market_open_analysis: either an error dict or the payload. -/
inductive MOResult where
  | err (msg : String)
  | ok (data : MarketOpenData)
deriving DecidableEq

def MOResult.directionOf : MOResult → Option String
  | .err _ => none
  | .ok d => some d.opening_direction

def MOResult.highOf : MOResult → Option ℚ
  | .err _ => none
  | .ok d => some d.opening_high

def MOResult.lowOf : MOResult → Option ℚ
  | .err _ => none
  | .ok d => some d.opening_low

/-- Erase the ambient-clock field, keeping everything else. -/
def MOResult.stripDate : MOResult → MOResult
  | .err m => .err m
  | .ok d => .ok { d with market_open_date := "" }

/-- Index (counting from 1) of the first gap of more than 7200 seconds
between consecutive candles of the descending-sorted list
(market_open.py lines 15-21; the loop breaks after the first boundary). -/
def first_day_boundary_go (prev : Candle) (rest : List Candle) (i : ℕ) : Option ℕ :=
  match rest with
  | [] => none
  | x :: xs => if prev.ts - x.ts > 7200 then some i else first_day_boundary_go x xs (i + 1)

def first_day_boundary (cs : List Candle) : Option ℕ :=
  match cs with
  | [] => none
  | c :: rest => first_day_boundary_go c rest 1

/-- modules/market_open.py run_market_open_analysis, for the dict-with-candles
input shape.  The ambient date.today() call on line 61 is modelled by the
explicit parameter today; the try/except wrapper is not needed since the
embedding is total. -/
def run_market_open_analysis (today : String) (candles : List Candle) : MOResult :=
  if candles.length < 3 then .err "Insufficient candle data for analysis"
  else
    let sorted_candles := List.insertionSort (fun a b => b.ts ≤ a.ts) candles
    let mrd0 :=
      match first_day_boundary sorted_candles with
      | some i => sorted_candles.take i
      | none => sorted_candles
    let mrd := List.insertionSort (fun a b => a.ts ≤ b.ts) mrd0
    if mrd.length < 3 then .err "Not enough candles for the most recent day"
    else
      let orc := mrd.take 3
      let high := max_high orc
      let low := min_low orc
      let open_price := (orc.getD 0 default).o
      let close_price := (orc.getD 2 default).c
      let volatility := if low > 0 then (high - low) / low * 100 else 0
      let direction :=
        if close_price > high * 0.9975 then "strongly_bullish"
        else if close_price > open_price then "bullish"
        else if close_price < low * 1.0025 then "strongly_bearish"
        else if close_price < open_price then "bearish"
        else "neutral"
      let c2 := orc.getD 2 default
      let vwap := (c2.h + c2.l + c2.c) / 3
      let vwap_relation := if close_price > vwap then "above" else "below"
      let vwap_distance := if vwap > 0 then |close_price - vwap| / vwap * 100 else 0
      let opening_volume := (orc.map Candle.v).sum
      let avg_volume := (mrd.map Candle.v).sum / mrd.length * 3
      .ok
        { market_open_date := today
          market_open_time := "09:15:00"
          analysis_period := "09:15 - 09:30"
          candles_used := 3
          opening_high := high
          opening_low := low
          opening_range_width := high - low
          volatility_pct := volatility
          opening_direction := direction
          open_close_change_pct :=
            if open_price > 0 then (close_price - open_price) / open_price * 100 else 0
          high_volume_opening := decide (opening_volume > avg_volume)
          vwap_relation := vwap_relation
          vwap_distance_pct := vwap_distance
          opening_range_time := "first_15_minutes" }

/-! ### modules/fib_analysis.py -/

/-- Result dict of get_fib_levels; the error branches return the same keys
with neutral defaults plus the error marker (fib_analysis.py lines 24-30). -/
structure FibResult where
  trend : String
  swing_high : ℚ
  swing_low : ℚ
  retracement_levels : List (String × ℚ)
  error : Option String
deriving DecidableEq

/-- modules/fib_analysis.py get_fib_levels, for the dict-with-candles input
shape.  The length guard (not candles or len < 10) collapses to length < 10. -/
def get_fib_levels (mode : String) (candles : List Candle) : FibResult :=
  if candles.length < 10 then
    { trend := "neutral", swing_high := 0, swing_low := 0, retracement_levels := []
      error := some "Insufficient data for Fibonacci analysis" }
  else
    let window : ℕ := if mode = "intraday" then 30 else 100
    let k := min window candles.length
    let df_window := candles.drop (candles.length - k)
    let recent_high := max_high df_window
    let recent_low := min_low df_window
    let first_high := (df_window.getD 0 default).h
    let trend := if recent_high > first_high then "uptrend" else "downtrend"
    let diff := recent_high - recent_low
    let fib_levels :=
      if recent_high > first_high then
        [("0.0%", recent_high), ("23.6%", recent_high - 0.236 * diff),
         ("38.2%", recent_high - 0.382 * diff), ("50.0%", recent_high - 0.500 * diff),
         ("61.8%", recent_high - 0.618 * diff), ("78.6%", recent_high - 0.786 * diff),
         ("100%", recent_low)]
      else
        [("0.0%", recent_low), ("23.6%", recent_low + 0.236 * diff),
         ("38.2%", recent_low + 0.382 * diff), ("50.0%", recent_low + 0.500 * diff),
         ("61.8%", recent_low + 0.618 * diff), ("78.6%", recent_low + 0.786 * diff),
         ("100%", recent_high)]
    { trend := trend, swing_high := recent_high, swing_low := recent_low
      retracement_levels := fib_levels, error := none }

/-! ### modules/support_resistance.py -/

structure SRResult where
  support : List ℚ
  resistance : List ℚ
  current_price : Option ℚ
  nearest_support : Option ℚ
  nearest_resistance : Option ℚ
  error : Option String
deriving DecidableEq

def min_list (xs : List ℚ) : ℚ :=
  match xs with
  | [] => 0
  | x :: t => t.foldl min x

def max_list (xs : List ℚ) : ℚ :=
  match xs with
  | [] => 0
  | x :: t => t.foldl max x

/-- pandas Series.rolling(window=w, center=True).min() at position i: the
window spans [i - w + 1 + off, i + off] with off = (w - 1) / 2, and the value
is defined only when the full window lies inside the series. -/
def rolling_center_min (w : ℕ) (xs : List ℚ) (i : ℕ) : Option ℚ :=
  let off := (w - 1) / 2
  if w ≤ i + off + 1 ∧ i + off < xs.length then
    some (min_list ((xs.drop (i + off + 1 - w)).take w))
  else none

/-- Same with max, for resistance levels. -/
def rolling_center_max (w : ℕ) (xs : List ℚ) (i : ℕ) : Option ℚ :=
  let off := (w - 1) / 2
  if w ≤ i + off + 1 ∧ i + off < xs.length then
    some (max_list ((xs.drop (i + off + 1 - w)).take w))
  else none

/-- pandas Series.shift(k) at position i (NaN, i.e. none, for i < k). -/
def shift_val (k : ℕ) (xs : List ℚ) (i : ℕ) : Option ℚ :=
  if k ≤ i then some (xs.getD (i - k) 0) else none

/-- Local-extremum mask of support_resistance.py lines 55-60: the value
equals the centered rolling extremum and differs from the value w/2 back
(a NaN comparison with != is True, matching the none case). -/
def local_extrema (roll : ℕ → List ℚ → ℕ → Option ℚ) (w : ℕ) (xs : List ℚ) : List ℚ :=
  ((List.range xs.length).filter fun i =>
      decide (roll w xs i = some (xs.getD i 0)) &&
      decide (shift_val (w / 2) xs i ≠ some (xs.getD i 0))).map
    fun i => xs.getD i 0

/-- sorted(list(set(...))) over rounded levels: deduplicate, then sort. -/
def sorted_distinct (xs : List ℚ) : List ℚ :=
  List.insertionSort (fun a b => a ≤ b) xs.eraseDups

/-- support_resistance.py cluster_nearby_levels inner loop: cur is the
cluster being grown, in order. -/
def cluster_go (threshold_pct : ℚ) (cur : List ℚ) : List ℚ → List (List ℚ)
  | [] => [cur]
  | level :: rest =>
    let last_cluster_avg := cur.sum / cur.length
    let pct_diff := |level - last_cluster_avg| / last_cluster_avg * 100
    if pct_diff ≤ threshold_pct then cluster_go threshold_pct (cur ++ [level]) rest
    else cur :: cluster_go threshold_pct [level] rest

/-- support_resistance.py cluster_nearby_levels. -/
def cluster_nearby_levels (threshold_pct : ℚ) (levels : List ℚ) : List ℚ :=
  match List.insertionSort (fun a b => a ≤ b) levels with
  | [] => []
  | x :: rest => (cluster_go threshold_pct [x] rest).map fun cl => cl.sum / cl.length

/-- support_resistance.py find_nearest_level. -/
def find_nearest_level (levels : List ℚ) (price : ℚ) (below : Bool) : ℚ :=
  if levels = [] then (if below then price * 0.99 else price * 1.01)
  else if below then
    match levels.filter (fun level => level < price) with
    | [] => price * 0.99
    | x :: t => max_list (x :: t)
  else
    match levels.filter (fun level => price < level) with
    | [] => price * 1.01
    | x :: t => min_list (x :: t)

def last_close (cs : List Candle) : ℚ :=
  match cs.getLast? with
  | some x => x.c
  | none => 0

/-- modules/support_resistance.py get_support_resistance, for the
dict-with-candles input shape. -/
def get_support_resistance (cs : List Candle) : SRResult :=
  if cs.length < 10 then
    { support := [], resistance := [], current_price := none, nearest_support := none
      nearest_resistance := none
      error := some "Insufficient data for support/resistance analysis" }
  else
    let w := min 10 (cs.length / 3)
    let lowsL := cs.map Candle.l
    let highsL := cs.map Candle.h
    let support0 := local_extrema rolling_center_min w lowsL
    let resistance0 := local_extrema rolling_center_max w highsL
    let support1 := sorted_distinct (support0.map (round_dp 2))
    let resistance1 := sorted_distinct (resistance0.map (round_dp 2))
    let support := cluster_nearby_levels 0.5 support1
    let resistance := cluster_nearby_levels 0.5 resistance1
    let cur := last_close cs
    { support := support, resistance := resistance, current_price := some cur
      nearest_support := some (find_nearest_level support cur true)
      nearest_resistance := some (find_nearest_level resistance cur false)
      error := none }

/-! ### modules/build_final_signal.py -/

/-- ML predictor output (ml/predict_ml_signal.py contract). -/
structure MlPrediction where
  ml_signal : String
  confidence : ℚ
deriving DecidableEq

/-- LLM sanity-check output (modules/openai_checker.py contract). -/
structure AiOpinion where
  decision : String
  confidence : ℚ
deriving DecidableEq

structure FinalSignalMeta where
  final_decision : String
  confidence_score : ℚ
deriving DecidableEq

/-- Step 16 of modules/build_final_signal.py (lines 71-76): the final
decision gate and the composite confidence score, which the source rounds
to 3 decimal places.  The surrounding steps 1-15 are orchestration of the
individual analyzers and external collaborators. -/
def build_final_signal_meta (ml : MlPrediction) (gpt : AiOpinion) : FinalSignalMeta :=
  { final_decision :=
      if gpt.decision = "AGREE" ∧ gpt.confidence ≥ 0.75 then ml.ml_signal else "SKIP"
    confidence_score := round_dp 3 (ml.confidence * 0.6 + gpt.confidence * 0.4) }

/-! ### modules/trend_analysis.py -/

/-- The 7-value TrendType enum of trend_analysis.py. -/
inductive TrendType where
  | strong_uptrend
  | uptrend
  | weak_uptrend
  | neutral
  | weak_downtrend
  | downtrend
  | strong_downtrend
deriving DecidableEq

/-- Numerical mapping of trend values (trend_analysis.py lines 460-468). -/
def trendValue : TrendType → ℤ
  | .strong_uptrend => 3
  | .uptrend => 2
  | .weak_uptrend => 1
  | .neutral => 0
  | .weak_downtrend => -1
  | .downtrend => -2
  | .strong_downtrend => -3

/-- Weighted sum of the five detection methods with the fixed weights
0.4 / 0.3 / 0.1 / 0.1 / 0.1 (trend_analysis.py lines 451-478). -/
def trend_weighted_sum (st mt lt hl lr : TrendType) : ℚ :=
  (trendValue st : ℚ) * 0.4 + (trendValue mt : ℚ) * 0.3 + (trendValue lt : ℚ) * 0.1 +
    (trendValue hl : ℚ) * 0.1 + (trendValue lr : ℚ) * 0.1

/-- Re-bucketing of the weighted sum (trend_analysis.py lines 481-487).
The source performs seven sequential masked assignments, so of the two
overlapping buckets on (-1, 0) the later weak_downtrend write wins; the
conditions below are the original ones, tested in reverse write order. -/
def consolidated_bucket (ws : ℚ) : TrendType :=
  if -1 < ws ∧ ws < 0 then .weak_downtrend
  else if -2 < ws ∧ ws ≤ -1 then .downtrend
  else if ws ≤ -2 then .strong_downtrend
  else if -1 < ws ∧ ws ≤ 0 then .neutral
  else if 0 < ws ∧ ws < 1 then .weak_uptrend
  else if 1 ≤ ws ∧ ws < 2 then .uptrend
  else .strong_uptrend

/-- TrendDetector._calculate_consolidated_trend at one evaluation bar, with
all five method columns present. -/
def calculate_consolidated_trend (st mt lt hl lr : TrendType) : TrendType :=
  consolidated_bucket (trend_weighted_sum st mt lt hl lr)

/-! ### modules/option_chain.py -/

/-- One row of the option chain snapshot, with all OI/volume columns
present (OptionChainAnalyzer._fill_missing_values backfills absent ones)
and the implied volatilities already populated, the case in which the IV
solver is not re-run.  With no expiry_date column the analyzer fixes
time_to_expiry = 30/365 for every row (option_chain.py line 84), which is
the case embedded here. -/
structure OcRow where
  strike : ℚ
  call_price : ℚ
  put_price : ℚ
  call_oi : ℚ
  put_oi : ℚ
  call_volume : ℚ
  put_volume : ℚ
  call_iv : ℚ
  put_iv : ℚ
deriving DecidableEq

/-- The _prepare_data step sorts the chain by strike (option_chain.py line 70). -/
def sort_rows_by_strike (rows : List OcRow) : List OcRow :=
  List.insertionSort (fun a b => a.strike ≤ b.strike) rows

def moneyness (spot : ℚ) (r : OcRow) : ℚ := r.strike / spot

def row_avg_iv (r : OcRow) : ℚ := (r.call_iv + r.put_iv) / 2

/-- Total option-writer pain if the underlying expires at test_price
(option_chain.py lines 367-375). -/
def writer_pain (rows : List OcRow) (test_price : ℚ) : ℚ :=
  (rows.map fun r => r.call_oi * max 0 (test_price - r.strike)).sum +
    (rows.map fun r => r.put_oi * max 0 (r.strike - test_price)).sum

/-- np.argmin over (strike, pain) pairs: keep the first pair whose pain is
minimal (a strictly smaller pain replaces the current best). -/
def min_pain_fold : List (ℚ × ℚ) → ℚ × ℚ → ℚ × ℚ
  | [], best => best
  | p :: ps, best => min_pain_fold ps (if p.2 < best.2 then p else best)

/-- The strike of minimal writer pain (option_chain.py lines 360-380).  The
spot fallback mirrors the missing-OI-columns branch; it is also returned on
an empty chain, on which the source np.argmin would raise. -/
def max_pain_strike (spot : ℚ) (rows : List OcRow) : ℚ :=
  match rows.map fun r => (r.strike, writer_pain rows r.strike) with
  | [] => spot
  | p :: ps => (min_pain_fold ps p).1

structure MaxPainResult where
  price : ℚ
  deviation_pct : ℚ
  impact : String
deriving DecidableEq

/-- OptionChainAnalyzer.analyze_max_pain (option_chain.py lines 347-403),
for a chain carrying the OI columns. -/
def analyze_max_pain (spot : ℚ) (rows : List OcRow) : MaxPainResult :=
  let max_pain := max_pain_strike spot rows
  let max_pain_deviation := (max_pain / spot - 1) * 100
  let max_pain_impact :=
    if |max_pain_deviation| < 0.5 then "Neutral - Spot price aligned with max pain"
    else if max_pain_deviation > 2 then "Bullish - Max pain above spot, potential upward magnet"
    else if max_pain_deviation < -2 then
      "Bearish - Max pain below spot, potential downward magnet"
    else if max_pain_deviation > 0 then "Slightly Bullish - Max pain slightly above spot"
    else "Slightly Bearish - Max pain slightly below spot"
  { price := max_pain, deviation_pct := max_pain_deviation, impact := max_pain_impact }

def total_call_oi (rows : List OcRow) : ℚ := (rows.map OcRow.call_oi).sum

def total_put_oi (rows : List OcRow) : ℚ := (rows.map OcRow.put_oi).sum

def total_call_volume (rows : List OcRow) : ℚ := (rows.map OcRow.call_volume).sum

def total_put_volume (rows : List OcRow) : ℚ := (rows.map OcRow.put_volume).sum

structure PcrResult where
  pcr_oi : ℚ
  pcr_volume : ℚ
  oi_interpretation : String
  oi_sentiment : String
  oi_contrarian : String
  volume_interpretation : String
  volume_sentiment : String
  volume_contrarian : String
  consolidated_sentiment : String
deriving DecidableEq

/-- OptionChainAnalyzer.analyze_put_call_ratio (option_chain.py lines
716-812), for a chain carrying the OI and volume columns.  Both ratios
guard the denominator with max(1, total). -/
def analyze_pcr (rows : List OcRow) : PcrResult :=
  let pcr_oi := total_put_oi rows / max 1 (total_call_oi rows)
  let pcr_volume := total_put_volume rows / max 1 (total_call_volume rows)
  let oi3 : String × String × String :=
    if pcr_oi > 2.0 then
      ("Extremely Bearish Positioning (Bullish Contrarian Signal)", "Bearish", "Strong Bullish")
    else if pcr_oi > 1.5 then
      ("Bearish Positioning (Moderate Bullish Contrarian Signal)", "Bearish", "Moderate Bullish")
    else if pcr_oi > 1.2 then
      ("Slightly Bearish Positioning", "Slightly Bearish", "Slightly Bullish")
    else if pcr_oi < 0.5 then
      ("Extremely Bullish Positioning (Bearish Contrarian Signal)", "Bullish", "Strong Bearish")
    else if pcr_oi < 0.7 then
      ("Bullish Positioning (Moderate Bearish Contrarian Signal)", "Bullish", "Moderate Bearish")
    else if pcr_oi < 0.8 then
      ("Slightly Bullish Positioning", "Slightly Bullish", "Slightly Bearish")
    else ("Neutral Positioning", "Neutral", "Neutral")
  let vol3 : String × String × String :=
    if pcr_volume > 2.5 then
      ("Panic Buying of Puts (Strong Bullish Contrarian Signal)", "Bearish", "Strong Bullish")
    else if pcr_volume > 1.8 then
      ("Fearful Buying of Puts (Bullish Contrarian Signal)", "Bearish", "Moderate Bullish")
    else if pcr_volume > 1.3 then
      ("Cautious Sentiment (Slight Bullish Contrarian Signal)", "Slightly Bearish",
        "Slightly Bullish")
    else if pcr_volume < 0.4 then
      ("Frenzy Call Buying (Strong Bearish Contrarian Signal)", "Bullish", "Strong Bearish")
    else if pcr_volume < 0.6 then
      ("Aggressive Call Buying (Bearish Contrarian Signal)", "Bullish", "Moderate Bearish")
    else if pcr_volume < 0.8 then
      ("Optimistic Sentiment (Slight Bearish Contrarian Signal)", "Slightly Bullish",
        "Slightly Bearish")
    else ("Balanced Trading Activity", "Neutral", "Neutral")
  { pcr_oi := pcr_oi
    pcr_volume := pcr_volume
    oi_interpretation := oi3.1
    oi_sentiment := oi3.2.1
    oi_contrarian := oi3.2.2
    volume_interpretation := vol3.1
    volume_sentiment := vol3.2.1
    volume_contrarian := vol3.2.2
    consolidated_sentiment :=
      if |pcr_volume - 1| > |pcr_oi - 1| then vol3.2.1 else oi3.2.1 }

/-- pandas Series.idxmin over f: the first row attaining the minimum, in
list order (none only on the empty chain, on which the source raises). -/
def idxmin_by (f : OcRow → ℚ) : List OcRow → Option OcRow
  | [] => none
  | r :: rs => some (rs.foldl (fun best x => if f x < f best then x else best) r)

/-- analyze_iv_skew sorts by moneyness before the idxmin lookups
(option_chain.py line 422). -/
def sort_rows_by_moneyness (spot : ℚ) (rows : List OcRow) : List OcRow :=
  List.insertionSort (fun a b => moneyness spot a ≤ moneyness spot b) rows

/-- The (skew quotient, ATM IV) pair of OptionChainAnalyzer.analyze_iv_skew
(option_chain.py lines 421-442): ATM IV from the row nearest moneyness 1,
the quotient of the OTM put IV (nearest 0.95) over the OTM call IV (nearest
1.05).  Division here is exact rational division (the source works in IEEE
floats); the empty-chain fallback (1, 0) stands for the error path. -/
def iv_skew_vals (spot : ℚ) (rows : List OcRow) : ℚ × ℚ :=
  let sorted := sort_rows_by_moneyness spot rows
  match idxmin_by (fun r => |moneyness spot r - 1|) sorted with
  | none => (1, 0)
  | some atmRow =>
    let atm_iv := row_avg_iv atmRow
    match idxmin_by (fun r => |moneyness spot r - 0.95|) sorted,
        idxmin_by (fun r => |moneyness spot r - 1.05|) sorted with
    | some p, some c => (p.put_iv / c.call_iv, atm_iv)
    | _, _ => (1, atm_iv)

/-- Normalized net dealer gamma of OptionChainAnalyzer.analyze_dealer_gamma
(option_chain.py lines 509-517).  The per-row Black-Scholes gamma
(_calculate_gamma, which uses the transcendental normal density) is the
explicit parameter g, applied as in _calculate_greeks to (strike,
time_to_expiry, avg_iv) with time_to_expiry = 30/365. -/
def norm_net_gamma (g : ℚ → ℚ → ℚ → ℚ) (spot : ℚ) (rows : List OcRow) : ℚ :=
  let tte : ℚ := 30 / 365
  let call_exp := (rows.map fun r =>
    g r.strike tte (row_avg_iv r) * r.call_oi * spot * spot * 0.01).sum
  let put_exp := (rows.map fun r =>
    g r.strike tte (row_avg_iv r) * r.put_oi * spot * spot * 0.01).sum
  (call_exp - put_exp) / (spot * 10000)

structure MarketSentiment where
  score : ℚ
  sentiment : String
  interpretation : String
  contrarian_signal : Option String
deriving DecidableEq

/-- The component scoring and weighting of
OptionChainAnalyzer.calculate_market_sentiment (option_chain.py lines
908-1051), applied to a chain already prepared (sorted by strike). -/
def sentiment_of_prepared (g : ℚ → ℚ → ℚ → ℚ) (spot : ℚ) (rows : List OcRow) :
    MarketSentiment :=
  let pcr := analyze_pcr rows
  let pcr_oi := pcr.pcr_oi
  let pcr_oi_score :=
    if pcr_oi > 1.0 then min 20 (10 + 10 * (pcr_oi - 1) / 1.5)
    else max 0 (10 - 10 * (1 - pcr_oi) / 0.5)
  let pcr_volume := pcr.pcr_volume
  let pcr_volume_score :=
    if pcr_volume > 1.0 then min 15 (7.5 + 7.5 * (pcr_volume - 1) / 2)
    else max 0 (7.5 - 7.5 * (1 - pcr_volume) / 0.6)
  let sk := iv_skew_vals spot rows
  let iv_skew_score :=
    if sk.1 > 1.0 then max 0 (7.5 - 7.5 * (sk.1 - 1) / 0.3)
    else min 15 (7.5 + 7.5 * (1 - sk.1) / 0.3)
  let max_pain_dev := (analyze_max_pain spot rows).deviation_pct
  let max_pain_score := max 0 (min 20 (10 + max_pain_dev * 2))
  let norm_gamma := norm_net_gamma g spot rows
  let gamma_score :=
    if norm_gamma > 0 then max 0 (7.5 - 7.5 * norm_gamma / 0.3)
    else min 15 (7.5 + 7.5 * |norm_gamma| / 0.3)
  let atm_iv := sk.2
  let iv_level_score :=
    if atm_iv > 0.3 then max 0 (7.5 - 7.5 * (atm_iv - 0.3) / 0.3)
    else min 15 (7.5 + 7.5 * (0.3 - atm_iv) / 0.2)
  let total_score :=
    (pcr_oi_score * 0.2 + pcr_volume_score * 0.15 + iv_skew_score * 0.15 +
        max_pain_score * 0.2 + gamma_score * 0.15 + iv_level_score * 0.15) /
      (0.2 + 0.15 + 0.15 + 0.2 + 0.15 + 0.15) * 100
  let pair : String × String :=
    if total_score > 80 then
      ("Strongly Bullish", "Very optimistic market outlook, potentially overbought")
    else if total_score > 65 then ("Bullish", "Positive market outlook, upward bias expected")
    else if total_score > 55 then ("Slightly Bullish", "Mildly positive market outlook")
    else if total_score > 45 then ("Neutral", "Balanced market outlook, no clear bias")
    else if total_score > 35 then ("Slightly Bearish", "Mildly negative market outlook")
    else if total_score > 20 then ("Bearish", "Negative market outlook, downward bias expected")
    else ("Strongly Bearish", "Very pessimistic market outlook, potentially oversold")
  let contrarian_signal :=
    if total_score > 85 then some "Extreme bullishness - potential contrarian sell signal"
    else if total_score < 15 then some "Extreme bearishness - potential contrarian buy signal"
    else none
  { score := total_score, sentiment := pair.1, interpretation := pair.2
    contrarian_signal := contrarian_signal }

/-- OptionChainAnalyzer.calculate_market_sentiment on a raw chain snapshot:
_prepare_data first canonicalizes the rows by sorting on strike. -/
def calculate_market_sentiment (g : ℚ → ℚ → ℚ → ℚ) (spot : ℚ) (rows : List OcRow) :
    MarketSentiment :=
  sentiment_of_prepared g spot (sort_rows_by_strike rows)

/-- One clustered level entering the final grid-build loop of
generate_grid_levels (the source dict; type is a Lean keyword, hence
ltype). -/
structure TopLevel where
  price : ℚ
  ltype : String
  sources : List String
  strength : ℚ
  confirmation : ℚ
  deviation : ℚ
deriving DecidableEq

/-- One generated grid level (option_chain.py lines 1289-1301; the
price_formatted / allocation_formatted fields are string renderings of
price and allocation_pct and are not modelled). -/
structure GridLevel where
  level : ℕ
  price : ℚ
  deviation_pct : ℚ
  action : String
  gtype : String
  sources : List String
  strength : ℚ
  conviction : ℚ
  allocation_pct : ℚ
deriving DecidableEq

/-- Body of the final loop of generate_grid_levels (option_chain.py lines
1265-1301) for the i-th selected level (level numbers count from 1). -/
def grid_level_of (spot sentiment_score total_strength : ℚ) (i : ℕ) (l : TopLevel) :
    GridLevel :=
  let action_conviction : String × ℚ :=
    if l.price < spot then
      let bearish_sentiment := max 0 (50 - sentiment_score) / 50
      ("BUY", l.strength * (1 + bearish_sentiment * 0.3))
    else if l.price > spot then
      let bullish_sentiment := max 0 (sentiment_score - 50) / 50
      ("SELL", l.strength * (1 + bullish_sentiment * 0.3))
    else ("NEUTRAL", 0.5)
  { level := i + 1
    price := l.price
    deviation_pct := l.deviation
    action := action_conviction.1
    gtype := l.ltype
    sources := l.sources
    strength := l.strength
    conviction := min action_conviction.2 1.0
    allocation_pct := l.strength * 100 / total_strength }

def grid_levels_go (spot sentiment_score total_strength : ℚ) (i : ℕ) :
    List TopLevel → List GridLevel
  | [] => []
  | l :: ls =>
    grid_level_of spot sentiment_score total_strength i l ::
      grid_levels_go spot sentiment_score total_strength (i + 1) ls

/-- The grid-strategy stage of OptionChainAnalyzer.generate_grid_levels
(option_chain.py lines 1256-1304): the selected top_levels, already sorted
by price, are turned into grid levels whose allocation_pct is the level's
share of the total strength. -/
def generate_grid_levels_from (spot sentiment_score : ℚ) (top_levels : List TopLevel) :
    List GridLevel :=
  grid_levels_go spot sentiment_score ((top_levels.map TopLevel.strength).sum) 0 top_levels

/-- The slice of the OptionChainAnalyzer.get_full_analysis report (lines
1342-1356) covered by this embedding; timestamp is the ambient
datetime.now() value of line 1344. -/
structure OcReport where
  timestamp : String
  spot_price : ℚ
  max_pain : MaxPainResult
  put_call : PcrResult
  market_sentiment : MarketSentiment
deriving DecidableEq

def get_full_analysis (g : ℚ → ℚ → ℚ → ℚ) (now : String) (spot : ℚ) (rows : List OcRow) :
    OcReport :=
  let prepared := sort_rows_by_strike rows
  { timestamp := now
    spot_price := spot
    max_pain := analyze_max_pain spot prepared
    put_call := analyze_pcr prepared
    market_sentiment := sentiment_of_prepared g spot prepared }

/-- Erase the ambient-clock field of the report. -/
def OcReport.stripTimestamp (r : OcReport) : OcReport := { r with timestamp := "" }

def MOResult.dateOf : MOResult → Option String
  | .err _ => none
  | .ok d => some d.market_open_date

instance : IsTotal OcRow (fun a b => a.strike ≤ b.strike) :=
  ⟨fun a b => le_total a.strike b.strike⟩

instance : IsTrans OcRow (fun a b => a.strike ≤ b.strike) :=
  ⟨fun _ _ _ h₁ h₂ => le_trans h₁ h₂⟩

/-! ### Concrete example inputs used by witnesses and counterexamples -/

/-- The spec scenario's three ascending 15-minute bars; timestamps 900 s
apart keep all three inside one trading session (gap threshold 7200 s). -/
def mo_candles : List Candle :=
  [⟨0, 100, 105, 99, 104, 0⟩, ⟨900, 104, 110, 103, 108, 0⟩, ⟨1800, 108, 115, 107, 112, 0⟩]

/-- Ten valid ascending candles for the Fibonacci witness. -/
def fib_candles : List Candle :=
  [⟨0, 100, 105, 99, 104, 10⟩, ⟨900, 104, 106, 100, 105, 10⟩, ⟨1800, 105, 108, 103, 107, 10⟩,
   ⟨2700, 107, 109, 104, 108, 10⟩, ⟨3600, 108, 111, 106, 110, 10⟩,
   ⟨4500, 110, 112, 108, 111, 10⟩, ⟨5400, 111, 113, 109, 112, 10⟩,
   ⟨6300, 112, 115, 110, 114, 10⟩, ⟨7200, 114, 116, 112, 115, 10⟩,
   ⟨8100, 115, 118, 113, 117, 10⟩]

def oc_row_a : OcRow := ⟨22000, 150, 140, 900, 1200, 80, 70, 0.18, 0.2⟩

def oc_row_b : OcRow := ⟨22100, 95, 210, 1500, 600, 60, 40, 0.17, 0.21⟩

def oc_row_c : OcRow := ⟨21900, 240, 90, 700, 1400, 50, 90, 0.19, 0.22⟩

def mp_rows : List OcRow := [oc_row_a, oc_row_b, oc_row_c]

def sent_rows_a : List OcRow := [oc_row_a, oc_row_b]

def sent_rows_b : List OcRow := [oc_row_b, oc_row_a]

/-- Chain with zero call open interest everywhere, for the PCR witness. -/
def zero_call_rows : List OcRow :=
  [⟨22000, 150, 140, 0, 1200, 80, 70, 0.18, 0.2⟩, ⟨22100, 95, 210, 0, 600, 60, 40, 0.17, 0.21⟩]

def gamma_zero : ℚ → ℚ → ℚ → ℚ := fun _ _ _ => 0

def top_levels_w : List TopLevel :=
  [⟨21900, "support", ["support_resistance"], 0.8, 0.5, -0.45⟩,
   ⟨22100, "resistance", ["implied_range_upper"], 0.7, 0, 0.45⟩]

/-! ## Theorems -/

/-! ### Generic fold lemmas -/

theorem le_fold_max (f : α → ℚ) : ∀ (l : List α) (b : ℚ), b ≤ fold_max f l b
  | [], _ => le_refl _
  | x :: xs, b => le_trans (le_max_left _ (f x)) (le_fold_max f xs (max b (f x)))

theorem mem_le_fold_max (f : α → ℚ) :
    ∀ (l : List α) (b : ℚ) (a : α), a ∈ l → f a ≤ fold_max f l b
  | x :: xs, b, a, ha => by
    rcases List.mem_cons.mp ha with rfl | h
    · exact le_trans (le_max_right b (f a)) (le_fold_max f xs _)
    · exact mem_le_fold_max f xs _ a h

theorem fold_min_le (f : α → ℚ) : ∀ (l : List α) (b : ℚ), fold_min f l b ≤ b
  | [], _ => le_refl _
  | x :: xs, b => le_trans (fold_min_le f xs (min b (f x))) (min_le_left _ (f x))

theorem fold_min_le_mem (f : α → ℚ) :
    ∀ (l : List α) (b : ℚ) (a : α), a ∈ l → fold_min f l b ≤ f a
  | x :: xs, b, a, ha => by
    rcases List.mem_cons.mp ha with rfl | h
    · exact le_trans (fold_min_le f xs _) (min_le_right b (f a))
    · exact fold_min_le_mem f xs _ a h

theorem mem_le_max_high {cs : List Candle} {c : Candle} (h : c ∈ cs) : c.h ≤ max_high cs := by
  match cs, h with
  | x :: xs, h =>
    rcases List.mem_cons.mp h with rfl | h'
    · exact le_fold_max Candle.h xs c.h
    · exact mem_le_fold_max Candle.h xs x.h c h'

theorem min_low_le_mem {cs : List Candle} {c : Candle} (h : c ∈ cs) : min_low cs ≤ c.l := by
  match cs, h with
  | x :: xs, h =>
    rcases List.mem_cons.mp h with rfl | h'
    · exact fold_min_le Candle.l xs c.l
    · exact fold_min_le_mem Candle.l xs x.l c h'

/-! ### C5 -/

/-- C5: every candle input shorter than the operation's minimum — fewer
than 10 candles for Fibonacci and for support/resistance, fewer than 3 for
the opening range — yields a defined result carrying the insufficient-data
error marker; the embeddings are total functions, so no exception is
possible. -/
theorem insufficient_data_markers (mode today : String) (cf cs cm : List Candle)
    (hf : cf.length < 10) (hs : cs.length < 10) (hm : cm.length < 3) :
    (get_fib_levels mode cf).error = some "Insufficient data for Fibonacci analysis" ∧
    (get_support_resistance cs).error =
      some "Insufficient data for support/resistance analysis" ∧
    run_market_open_analysis today cm = .err "Insufficient candle data for analysis" := by
  refine ⟨?_, ?_, ?_⟩
  · simp [get_fib_levels, hf]
  · simp [get_support_resistance, hs]
  · simp [run_market_open_analysis, hm]

/-- Witness for C5 at the empty candle list. -/
theorem insufficient_data_markers_witness :
    ([] : List Candle).length < 10 ∧ ([] : List Candle).length < 3 ∧
    (get_fib_levels "intraday" []).error = some "Insufficient data for Fibonacci analysis" ∧
    (get_support_resistance []).error =
      some "Insufficient data for support/resistance analysis" ∧
    run_market_open_analysis "2025-01-01" [] = .err "Insufficient candle data for analysis" := by
  have h := insufficient_data_markers "intraday" "2025-01-01" [] [] []
    (by decide) (by decide) (by decide)
  exact ⟨by decide, by decide, h.1, h.2.1, h.2.2⟩

/-! ### C7 -/

theorem consolidated_bucket_of_two_le {ws : ℚ} (h : 2 ≤ ws) :
    consolidated_bucket ws = .strong_uptrend := by
  unfold consolidated_bucket
  rw [if_neg (by rintro ⟨_, h2⟩; linarith), if_neg (by rintro ⟨_, h2⟩; linarith),
    if_neg (by intro h2; linarith), if_neg (by rintro ⟨_, h2⟩; linarith),
    if_neg (by rintro ⟨_, h2⟩; linarith), if_neg (by rintro ⟨_, h2⟩; linarith)]

theorem consolidated_bucket_of_le_neg_two {ws : ℚ} (h : ws ≤ -2) :
    consolidated_bucket ws = .strong_downtrend := by
  unfold consolidated_bucket
  rw [if_neg (by rintro ⟨h1, _⟩; linarith), if_neg (by rintro ⟨h1, _⟩; linarith), if_pos h]

/-- C7: the consolidated trend is the fixed-weight (0.4/0.3/0.1/0.1/0.1)
vote of the five detection methods under the {-3..3} numeric mapping, and
its bucketing sends every weighted sum at least 2 to strong_uptrend and,
symmetrically, every weighted sum at most -2 to strong_downtrend. -/
theorem consolidated_trend_buckets (st mt lt hl lr : TrendType) :
    calculate_consolidated_trend st mt lt hl lr =
      consolidated_bucket (trend_weighted_sum st mt lt hl lr) ∧
    (2 ≤ trend_weighted_sum st mt lt hl lr →
      calculate_consolidated_trend st mt lt hl lr = .strong_uptrend) ∧
    (trend_weighted_sum st mt lt hl lr ≤ -2 →
      calculate_consolidated_trend st mt lt hl lr = .strong_downtrend) :=
  ⟨rfl, fun h => consolidated_bucket_of_two_le h, fun h => consolidated_bucket_of_le_neg_two h⟩

/-- Witness for C7: a bar whose weighted sum is exactly 2.5 consolidates
to strong_uptrend. -/
theorem consolidated_trend_buckets_witness :
    trend_weighted_sum .strong_uptrend .strong_uptrend .strong_uptrend .neutral .weak_uptrend
        = 2.5 ∧
    calculate_consolidated_trend .strong_uptrend .strong_uptrend .strong_uptrend .neutral
        .weak_uptrend = .strong_uptrend := by
  have hws : trend_weighted_sum .strong_uptrend .strong_uptrend .strong_uptrend .neutral
      .weak_uptrend = 2.5 := by
    norm_num [trend_weighted_sum, trendValue]
  refine ⟨hws, (consolidated_trend_buckets .strong_uptrend .strong_uptrend .strong_uptrend
    .neutral .weak_uptrend).2.1 ?_⟩
  rw [hws]; norm_num

/-! ### C2 -/

/-- C2 (amended): the final decision equals the ML signal when the LLM
agrees with confidence at least 0.75 and is SKIP in every other case, and
the composite confidence equals 0.6 times the ML confidence plus 0.4 times
the LLM confidence rounded to 3 decimal places, as the source rounds. -/
theorem final_signal_gate_and_confidence (ml : MlPrediction) (gpt : AiOpinion) :
    ((gpt.decision = "AGREE" ∧ gpt.confidence ≥ 0.75) →
      (build_final_signal_meta ml gpt).final_decision = ml.ml_signal) ∧
    (¬(gpt.decision = "AGREE" ∧ gpt.confidence ≥ 0.75) →
      (build_final_signal_meta ml gpt).final_decision = "SKIP") ∧
    (build_final_signal_meta ml gpt).confidence_score =
      round_dp 3 (ml.confidence * 0.6 + gpt.confidence * 0.4) := by
  refine ⟨fun hc => ?_, fun hc => ?_, rfl⟩
  · simp [build_final_signal_meta, if_pos hc]
  · simp only [build_final_signal_meta, if_neg hc]

/-- Counterexample for C2 as frozen: with ML confidence 0.0001 and LLM
confidence 0 the source's 3-decimal rounding returns 0, not the exact
weighted sum 0.00006. -/
theorem final_confidence_not_exact :
    (build_final_signal_meta ⟨"BUY", 0.0001⟩ ⟨"AGREE", 0⟩).confidence_score ≠
      0.0001 * 0.6 + (0 : ℚ) * 0.4 := by
  norm_num [build_final_signal_meta, round_dp, round_half_even]

/-- Witness for C2 at an agreeing LLM opinion of confidence 0.9. -/
theorem final_signal_gate_witness :
    (("AGREE" : String) = "AGREE" ∧ (0.9 : ℚ) ≥ 0.75) ∧
    (build_final_signal_meta ⟨"BUY", 0.8⟩ ⟨"AGREE", 0.9⟩).final_decision = "BUY" ∧
    (build_final_signal_meta ⟨"BUY", 0.8⟩ ⟨"AGREE", 0.9⟩).confidence_score =
      round_dp 3 ((0.8 : ℚ) * 0.6 + (0.9 : ℚ) * 0.4) := by
  have hc : (("AGREE" : String) = "AGREE" ∧ (0.9 : ℚ) ≥ 0.75) := ⟨rfl, by norm_num⟩
  have h := final_signal_gate_and_confidence ⟨"BUY", 0.8⟩ ⟨"AGREE", 0.9⟩
  exact ⟨hc, h.1 hc, h.2.2⟩

/-! ### C10 -/

/-- C10: both put-call ratios guard their denominator with max(1, total
call figure), so they are always defined, and a chain whose total call
open interest (resp. volume) is zero returns the bare total put open
interest (resp. volume) as the ratio. -/
theorem pcr_denominator_guard (rows : List OcRow) :
    (analyze_pcr rows).pcr_oi = total_put_oi rows / max 1 (total_call_oi rows) ∧
    (analyze_pcr rows).pcr_volume = total_put_volume rows / max 1 (total_call_volume rows) ∧
    (total_call_oi rows = 0 → (analyze_pcr rows).pcr_oi = total_put_oi rows) ∧
    (total_call_volume rows = 0 →
      (analyze_pcr rows).pcr_volume = total_put_volume rows) := by
  refine ⟨rfl, rfl, fun h0 => ?_, fun h0 => ?_⟩
  · show total_put_oi rows / max 1 (total_call_oi rows) = total_put_oi rows
    rw [h0]
    norm_num
  · show total_put_volume rows / max 1 (total_call_volume rows) = total_put_volume rows
    rw [h0]
    norm_num

/-- Witness for C10 on a chain with zero call open interest everywhere. -/
theorem pcr_denominator_guard_witness :
    total_call_oi zero_call_rows = 0 ∧
    (analyze_pcr zero_call_rows).pcr_oi = total_put_oi zero_call_rows := by
  have h0 : total_call_oi zero_call_rows = 0 := by
    norm_num [total_call_oi, zero_call_rows]
  exact ⟨h0, (pcr_denominator_guard zero_call_rows).2.2.1 h0⟩

/-! ### C9 -/

theorem grid_go_alloc_sum (spot ss T : ℚ) :
    ∀ (i : ℕ) (L : List TopLevel),
      ((grid_levels_go spot ss T i L).map GridLevel.allocation_pct).sum =
        (L.map TopLevel.strength).sum * 100 / T
  | _, [] => by simp [grid_levels_go]
  | i, l :: ls => by
    simp only [grid_levels_go, List.map_cons, List.sum_cons,
      grid_go_alloc_sum spot ss T (i + 1) ls]
    show l.strength * 100 / T + _ = _
    rw [div_add_div_same, ← add_mul]

/-- C9: whenever the selected grid levels are nonempty and all carry
strictly positive strength, the generated allocation percentages — each
level's strength over the total strength, times 100 — sum to exactly
100. -/
theorem grid_allocation_sums_to_100 (spot ss : ℚ) (top : List TopLevel)
    (hne : top ≠ []) (hpos : ∀ l ∈ top, 0 < l.strength) :
    ((generate_grid_levels_from spot ss top).map GridLevel.allocation_pct).sum = 100 := by
  have hT : 0 < (top.map TopLevel.strength).sum := by
    refine List.sum_pos _ (fun x hx => ?_) (by simpa using hne)
    obtain ⟨l, hl, rfl⟩ := List.mem_map.mp hx
    exact hpos l hl
  unfold generate_grid_levels_from
  rw [grid_go_alloc_sum, mul_comm, mul_div_assoc, div_self (ne_of_gt hT), mul_one]

/-- Witness for C9 on a two-level grid with strengths 0.8 and 0.7. -/
theorem grid_allocation_sums_to_100_witness :
    top_levels_w ≠ [] ∧ (∀ l ∈ top_levels_w, 0 < l.strength) ∧
    ((generate_grid_levels_from 22000 55 top_levels_w).map GridLevel.allocation_pct).sum
      = 100 := by
  have h1 : top_levels_w ≠ [] := by simp [top_levels_w]
  have h2 : ∀ l ∈ top_levels_w, 0 < l.strength := by
    intro l hl
    rcases List.mem_cons.mp hl with rfl | hl'
    · norm_num
    · rcases List.mem_cons.mp hl' with rfl | h
      · norm_num
      · cases h
  exact ⟨h1, h2, grid_allocation_sums_to_100 22000 55 top_levels_w h1 h2⟩

/-! ### C1 -/

theorem min_pain_fold_mem :
    ∀ (ps : List (ℚ × ℚ)) (best : ℚ × ℚ),
      min_pain_fold ps best = best ∨ min_pain_fold ps best ∈ ps
  | [], _ => .inl rfl
  | p :: ps, best => by
    simp only [min_pain_fold]
    by_cases hc : p.2 < best.2
    · rw [if_pos hc]
      rcases min_pain_fold_mem ps p with h | h
      · exact .inr (by rw [h]; exact List.mem_cons_self p ps)
      · exact .inr (List.mem_cons_of_mem p h)
    · rw [if_neg hc]
      rcases min_pain_fold_mem ps best with h | h
      · exact .inl h
      · exact .inr (List.mem_cons_of_mem p h)

theorem min_pain_fold_le_best :
    ∀ (ps : List (ℚ × ℚ)) (best : ℚ × ℚ), (min_pain_fold ps best).2 ≤ best.2
  | [], _ => le_refl _
  | p :: ps, best => by
    simp only [min_pain_fold]
    refine le_trans (min_pain_fold_le_best ps _) ?_
    by_cases hc : p.2 < best.2
    · rw [if_pos hc]; exact le_of_lt hc
    · rw [if_neg hc]

theorem min_pain_fold_le_mem :
    ∀ (ps : List (ℚ × ℚ)) (best q : ℚ × ℚ), q ∈ ps → (min_pain_fold ps best).2 ≤ q.2
  | p :: ps, best, q, hq => by
    simp only [min_pain_fold]
    rcases List.mem_cons.mp hq with rfl | h
    · refine le_trans (min_pain_fold_le_best ps _) ?_
      by_cases hc : q.2 < best.2
      · rw [if_pos hc]
      · rw [if_neg hc]; exact le_of_not_lt hc
    · exact min_pain_fold_le_mem ps _ q h

/-- C1: on a nonempty chain carrying open-interest columns, the max-pain
price is a strike of the chain, and the total writer pain there is at most
the writer pain at every other strike of the chain. -/
theorem max_pain_minimizes (spot : ℚ) (rows : List OcRow) (hne : rows ≠ []) :
    (analyze_max_pain spot rows).price ∈ rows.map OcRow.strike ∧
    ∀ r ∈ rows,
      writer_pain rows (analyze_max_pain spot rows).price ≤ writer_pain rows r.strike := by
  match rows, hne with
  | r0 :: rest, _ =>
    have hprice : (analyze_max_pain spot (r0 :: rest)).price =
        (min_pain_fold (rest.map fun r => (r.strike, writer_pain (r0 :: rest) r.strike))
          (r0.strike, writer_pain (r0 :: rest) r0.strike)).1 := rfl
    set f : OcRow → ℚ × ℚ := fun r => (r.strike, writer_pain (r0 :: rest) r.strike) with hf
    have hform : min_pain_fold (rest.map f) (f r0) = f r0 ∨
        ∃ r ∈ rest, min_pain_fold (rest.map f) (f r0) = f r := by
      rcases min_pain_fold_mem (rest.map f) (f r0) with h | h
      · exact .inl h
      · obtain ⟨r, hr, hfr⟩ := List.mem_map.mp h
        exact .inr ⟨r, hr, hfr.symm⟩
    have hval : ∃ r ∈ r0 :: rest, min_pain_fold (rest.map f) (f r0) = f r := by
      rcases hform with h | ⟨r, hr, h⟩
      · exact ⟨r0, List.mem_cons_self r0 rest, h⟩
      · exact ⟨r, List.mem_cons_of_mem r0 hr, h⟩
    obtain ⟨rm, hrm, hm⟩ := hval
    constructor
    · rw [hprice, hm]
      exact List.mem_map.mpr ⟨rm, hrm, rfl⟩
    · intro r hr
      rw [hprice, hm]
      show writer_pain (r0 :: rest) rm.strike ≤ writer_pain (r0 :: rest) r.strike
      have hsnd : (min_pain_fold (rest.map f) (f r0)).2 = writer_pain (r0 :: rest) rm.strike :=
        by rw [hm]
      rcases List.mem_cons.mp hr with heq | hr'
      · have hle := min_pain_fold_le_best (rest.map f) (f r0)
        rw [hsnd] at hle
        simp only [hf] at hle
        rw [heq]
        exact hle
      · have hle := min_pain_fold_le_mem (rest.map f) (f r0) (f r)
          (List.mem_map.mpr ⟨r, hr', rfl⟩)
        rw [hsnd] at hle
        simp only [hf] at hle
        exact hle

/-- Witness for C1 on a concrete three-strike chain. -/
theorem max_pain_minimizes_witness :
    mp_rows ≠ [] ∧
    (analyze_max_pain 22000 mp_rows).price ∈ mp_rows.map OcRow.strike ∧
    ∀ r ∈ mp_rows,
      writer_pain mp_rows (analyze_max_pain 22000 mp_rows).price ≤
        writer_pain mp_rows r.strike := by
  have hne : mp_rows ≠ [] := by simp [mp_rows]
  have h := max_pain_minimizes 22000 mp_rows hne
  exact ⟨hne, h.1, h.2⟩

/-! ### C6 -/

/-- Sorting by strike is a canonical form: two chains that are permutations
of one another with pairwise-distinct strikes sort to the same list. -/
theorem sort_rows_by_strike_eq_of_perm {l₁ l₂ : List OcRow} (hp : l₁.Perm l₂)
    (hnd : (l₁.map OcRow.strike).Nodup) :
    sort_rows_by_strike l₁ = sort_rows_by_strike l₂ := by
  have hp₁ : (sort_rows_by_strike l₁).Perm l₁ := by
    unfold sort_rows_by_strike
    exact List.perm_insertionSort _ l₁
  have hp₂ : (sort_rows_by_strike l₂).Perm l₂ := by
    unfold sort_rows_by_strike
    exact List.perm_insertionSort _ l₂
  have hs₁ : (sort_rows_by_strike l₁).Sorted (fun a b => a.strike ≤ b.strike) := by
    unfold sort_rows_by_strike
    exact List.sorted_insertionSort _ l₁
  have hs₂ : (sort_rows_by_strike l₂).Sorted (fun a b => a.strike ≤ b.strike) := by
    unfold sort_rows_by_strike
    exact List.sorted_insertionSort _ l₂
  have hnd₁ : ((sort_rows_by_strike l₁).map OcRow.strike).Nodup :=
    (hp₁.map OcRow.strike).nodup_iff.mpr hnd
  have hnd₂ : ((sort_rows_by_strike l₂).map OcRow.strike).Nodup :=
    (hp₂.map OcRow.strike).nodup_iff.mpr ((hp.map OcRow.strike).nodup_iff.mp hnd)
  have hpne₁ : (sort_rows_by_strike l₁).Pairwise (fun a b => a.strike ≠ b.strike) := by
    rw [List.Nodup, List.pairwise_map] at hnd₁
    exact hnd₁
  have hpne₂ : (sort_rows_by_strike l₂).Pairwise (fun a b => a.strike ≠ b.strike) := by
    rw [List.Nodup, List.pairwise_map] at hnd₂
    exact hnd₂
  have hlt₁ : (sort_rows_by_strike l₁).Pairwise (fun a b => a.strike < b.strike) :=
    (hs₁.and hpne₁).imp fun hab => lt_of_le_of_ne hab.1 hab.2
  have hlt₂ : (sort_rows_by_strike l₂).Pairwise (fun a b => a.strike < b.strike) :=
    (hs₂.and hpne₂).imp fun hab => lt_of_le_of_ne hab.1 hab.2
  haveI : IsAntisymm OcRow (fun a b => a.strike < b.strike) :=
    ⟨fun _ _ h₁ h₂ => absurd (lt_trans h₁ h₂) (lt_irrefl _)⟩
  exact List.eq_of_perm_of_sorted (hp₁.trans (hp.trans hp₂.symm)) hlt₁ hlt₂

/-- C6: the composite market sentiment (score, label, contrarian flag) is
invariant under any permutation of the chain's rows, for every spot price
and every per-row gamma function: the analyzer sorts the chain by strike
before computing.  Unique strikes are the chain invariant stated in the
spec's data model. -/
theorem sentiment_perm_invariant (g : ℚ → ℚ → ℚ → ℚ) (spot : ℚ) (l₁ l₂ : List OcRow)
    (hp : l₁.Perm l₂) (hnd : (l₁.map OcRow.strike).Nodup) :
    calculate_market_sentiment g spot l₁ = calculate_market_sentiment g spot l₂ := by
  unfold calculate_market_sentiment
  rw [sort_rows_by_strike_eq_of_perm hp hnd]

/-- Witness for C6: a two-row chain and its transposition give the same
sentiment result. -/
theorem sentiment_perm_invariant_witness :
    sent_rows_a.Perm sent_rows_b ∧ (sent_rows_a.map OcRow.strike).Nodup ∧
    calculate_market_sentiment gamma_zero 22000 sent_rows_a =
      calculate_market_sentiment gamma_zero 22000 sent_rows_b := by
  have hperm : sent_rows_a.Perm sent_rows_b := List.Perm.swap oc_row_b oc_row_a []
  have hnd : (sent_rows_a.map OcRow.strike).Nodup := by
    simp [sent_rows_a, oc_row_a, oc_row_b]
  exact ⟨hperm, hnd, sentiment_perm_invariant gamma_zero 22000 sent_rows_a sent_rows_b
    hperm hnd⟩

/-! ### C8 -/

/-- C8: with at least 10 candles, each with low at most high, the seven
retracement levels returned by get_fib_levels all lie between swing_low
and swing_high and are monotone: descending from swing_high to swing_low
in the uptrend branch, ascending from swing_low to swing_high in the
downtrend branch. -/
theorem fib_levels_ordered (mode : String) (candles : List Candle)
    (hlen : 10 ≤ candles.length) (hvalid : ∀ c ∈ candles, c.l ≤ c.h) :
    (get_fib_levels mode candles).error = none ∧
    (get_fib_levels mode candles).retracement_levels.length = 7 ∧
    (∀ p ∈ (get_fib_levels mode candles).retracement_levels,
      (get_fib_levels mode candles).swing_low ≤ p.2 ∧
        p.2 ≤ (get_fib_levels mode candles).swing_high) ∧
    ((get_fib_levels mode candles).trend = "uptrend" →
      ((get_fib_levels mode candles).retracement_levels.map Prod.snd).Chain'
        fun a b => b ≤ a) ∧
    ((get_fib_levels mode candles).trend = "downtrend" →
      ((get_fib_levels mode candles).retracement_levels.map Prod.snd).Chain'
        fun a b => a ≤ b) := by
  have hg : ¬(candles.length < 10) := not_lt.mpr hlen
  have hwne : candles.drop
      (candles.length - min (if mode = "intraday" then 30 else 100) candles.length) ≠ [] := by
    have hk : 10 ≤ min (if mode = "intraday" then 30 else 100) candles.length :=
      le_min (by split_ifs <;> norm_num) hlen
    have hlen' : (candles.drop
        (candles.length - min (if mode = "intraday" then 30 else 100) candles.length)).length =
        min (if mode = "intraday" then 30 else 100) candles.length := by
      rw [List.length_drop]
      omega
    intro hnil
    rw [hnil] at hlen'
    simp at hlen'
    omega
  obtain ⟨c0, w', hw⟩ := List.exists_cons_of_ne_nil hwne
  have hc0w : c0 ∈ candles.drop
      (candles.length - min (if mode = "intraday" then 30 else 100) candles.length) := by
    rw [hw]
    exact List.mem_cons_self c0 w'
  have hc0 : c0 ∈ candles := (List.drop_sublist _ _).subset hc0w
  have hLH : min_low (candles.drop
        (candles.length - min (if mode = "intraday" then 30 else 100) candles.length)) ≤
      max_high (candles.drop
        (candles.length - min (if mode = "intraday" then 30 else 100) candles.length)) :=
    le_trans (min_low_le_mem hc0w) (le_trans (hvalid c0 hc0) (mem_le_max_high hc0w))
  simp only [get_fib_levels, hg, if_false]
  set H := max_high (candles.drop
    (candles.length - min (if mode = "intraday" then 30 else 100) candles.length)) with hH
  set L := min_low (candles.drop
    (candles.length - min (if mode = "intraday" then 30 else 100) candles.length)) with hL
  split_ifs <;>
    refine ⟨trivial, rfl, fun p hp => ?_, fun h => ?_, fun h => ?_⟩ <;>
    first
      | exact absurd h (by decide)
      | (simp only [List.mem_cons, List.not_mem_nil, or_false] at hp
         rcases hp with rfl | rfl | rfl | rfl | rfl | rfl | rfl <;> (try dsimp only) <;>
           constructor <;> linarith)
      | (simp only [List.map_cons, List.map_nil, List.chain'_cons, List.chain'_singleton,
           and_true]
         try dsimp only
         refine ⟨?_, ?_, ?_, ?_, ?_, ?_⟩ <;> linarith)

/-- Witness for C8 on ten concrete valid candles in intraday mode. -/
theorem fib_levels_ordered_witness :
    10 ≤ fib_candles.length ∧ (∀ c ∈ fib_candles, c.l ≤ c.h) ∧
    ((get_fib_levels "intraday" fib_candles).error = none ∧
      (get_fib_levels "intraday" fib_candles).retracement_levels.length = 7 ∧
      (∀ p ∈ (get_fib_levels "intraday" fib_candles).retracement_levels,
        (get_fib_levels "intraday" fib_candles).swing_low ≤ p.2 ∧
          p.2 ≤ (get_fib_levels "intraday" fib_candles).swing_high) ∧
      ((get_fib_levels "intraday" fib_candles).trend = "uptrend" →
        ((get_fib_levels "intraday" fib_candles).retracement_levels.map Prod.snd).Chain'
          fun a b => b ≤ a) ∧
      ((get_fib_levels "intraday" fib_candles).trend = "downtrend" →
        ((get_fib_levels "intraday" fib_candles).retracement_levels.map Prod.snd).Chain'
          fun a b => a ≤ b)) := by
  have h1 : 10 ≤ fib_candles.length := by decide
  have h2 : ∀ c ∈ fib_candles, c.l ≤ c.h := by decide
  exact ⟨h1, h2, fib_levels_ordered "intraday" fib_candles h1 h2⟩

/-! ### C3 -/

/-- Counterexample for C3 as frozen: on the spec scenario's three ascending
bars the closing price 112 is not within 0.25 percent of the opening high
115, so the reported opening_direction is not strongly_bullish. -/
theorem opening_scenario_not_strongly_bullish :
    (run_market_open_analysis "2025-01-01" mo_candles).directionOf ≠
      some "strongly_bullish" := by
  norm_num [run_market_open_analysis, mo_candles, MOResult.directionOf, List.insertionSort,
    List.orderedInsert, first_day_boundary, first_day_boundary_go, max_high, min_low,
    fold_max, fold_min, List.getD]
  decide

/-- C3 (amended): on the 3-candle ascending series (100,105,99,104),
(104,110,103,108), (108,115,107,112) the opening-range analysis reports
opening_high 115 and opening_low 99 as claimed, but opening_direction
bullish (close above open yet more than 0.25 percent below the high). -/
theorem opening_scenario_values :
    (run_market_open_analysis "2025-01-01" mo_candles).directionOf = some "bullish" ∧
    (run_market_open_analysis "2025-01-01" mo_candles).highOf = some 115 ∧
    (run_market_open_analysis "2025-01-01" mo_candles).lowOf = some 99 := by
  refine ⟨?_, ?_, ?_⟩ <;>
    norm_num [run_market_open_analysis, mo_candles, MOResult.directionOf, MOResult.highOf,
      MOResult.lowOf, List.insertionSort, List.orderedInsert, first_day_boundary,
      first_day_boundary_go, max_high, min_low, fold_max, fold_min, List.getD]

/-! ### C4 -/

/-- Counterexample for C4 as frozen: run_market_open_analysis embeds the
ambient date.today() in its output, so two invocations on the identical
candle snapshot under different ambient dates return different results. -/
theorem analyzer_output_depends_on_clock :
    run_market_open_analysis "2025-10-11" mo_candles ≠
      run_market_open_analysis "2025-10-12" mo_candles := by
  intro hcontra
  have h := congrArg MOResult.dateOf hcontra
  have h1 : (run_market_open_analysis "2025-10-11" mo_candles).dateOf = some "2025-10-11" := by
    norm_num [run_market_open_analysis, mo_candles, MOResult.dateOf, List.insertionSort,
      List.orderedInsert, first_day_boundary, first_day_boundary_go]
  have h2 : (run_market_open_analysis "2025-10-12" mo_candles).dateOf = some "2025-10-12" := by
    norm_num [run_market_open_analysis, mo_candles, MOResult.dateOf, List.insertionSort,
      List.orderedInsert, first_day_boundary, first_day_boundary_go]
  rw [h1, h2] at h
  exact absurd h (by decide)

/-- C4 (amended): each analyzer is deterministic in its input together with
the ambient clock, and the clock reading flows only into the stamp fields:
with those erased, the opening-range result and the option-chain report are
identical across any two ambient clock readings on identical inputs. -/
theorem analyzers_clock_free_up_to_stamp :
    (∀ (t₁ t₂ : String) (candles : List Candle),
      (run_market_open_analysis t₁ candles).stripDate =
        (run_market_open_analysis t₂ candles).stripDate) ∧
    (∀ (g : ℚ → ℚ → ℚ → ℚ) (t₁ t₂ : String) (spot : ℚ) (rows : List OcRow),
      (get_full_analysis g t₁ spot rows).stripTimestamp =
        (get_full_analysis g t₂ spot rows).stripTimestamp) := by
  constructor
  · intro t₁ t₂ candles
    simp only [run_market_open_analysis]
    split_ifs <;> rfl
  · intro g t₁ t₂ spot rows
    rfl

end Sambot
